import Mathlib

/-!
Verification development for the tabular aggregation layer of the
anacode toolkit (`anacode/agg/aggregation.py`).  Tables are shallowly
embedded as Lean lists of row structures; a `pandas.DataFrame` that can
be `None` becomes `Option (List Row)`.  Floating point sentiment values,
probabilities and relevance scores are modelled as exact rationals; the
only `NaN` the relevant code paths can produce is the result of a `0/0`
division or a failed `reindex` lookup, which is modelled as `none` in an
`Option ℚ` value.  Python exceptions become an `Except` error value.
-/

/-- Row of the `concepts` table.  `freq` is an occurrence count (the
source dtype is int64; occurrence counts are non-negative, so `Nat`). -/
structure ConceptRow where
  doc_id : Nat
  text_order : Nat
  concept : String
  freq : Nat
  relevance_score : ℚ
  concept_type : String
deriving DecidableEq

/-- Row of the `concepts_surface_strings` table. -/
structure SurfaceRow where
  doc_id : Nat
  text_order : Nat
  concept : String
  surface_string : String
deriving DecidableEq

/-- Row of the `categories` table. -/
structure CategoryRow where
  doc_id : Nat
  text_order : Nat
  category : String
  probability : ℚ
deriving DecidableEq

/-- Row of the `sentiments` table. -/
structure SentimentRow where
  doc_id : Nat
  text_order : Nat
  sentiment_value : ℚ
deriving DecidableEq

/-- Row of the `absa_entities` table. -/
structure EntityRow where
  doc_id : Nat
  text_order : Nat
  entity_name : String
  entity_type : String
  surface_string : String
deriving DecidableEq

/-- Row of the `absa_normalized_texts` table. -/
structure NormalizedTextRow where
  doc_id : Nat
  text_order : Nat
  normalized_text : String
deriving DecidableEq

/-- Row of the `absa_relations` table. -/
structure RelationRow where
  doc_id : Nat
  text_order : Nat
  relation_id : Nat
  opinion_holder : String
  restriction : String
  sentiment_value : ℚ
  is_external : Bool
  surface_string : String
deriving DecidableEq

/-- Row of the `absa_relations_entities` join table. -/
structure RelationEntityRow where
  doc_id : Nat
  text_order : Nat
  relation_id : Nat
  entity_type : String
  entity_name : String
deriving DecidableEq

/-- Row of the `absa_evaluations` table. -/
structure EvaluationRow where
  doc_id : Nat
  text_order : Nat
  evaluation_id : Nat
  sentiment_value : ℚ
  surface_string : String
deriving DecidableEq

/-- Row of the `absa_evaluations_entities` join table. -/
structure EvaluationEntityRow where
  doc_id : Nat
  text_order : Nat
  evaluation_id : Nat
  entity_type : String
  entity_name : String
deriving DecidableEq

/-- The exception kinds of the aggregation layer.  `NoRelevantData` is the
source's exception of the same name; `InvalidArgument` models the
`ValueError` raised for malformed parameters, and `ConfigurationError`
models the `ValueError` raised by `DatasetLoader.__init__` when no data
group is available. -/
inductive AggError where
  | NoRelevantData : String → AggError
  | InvalidArgument : String → AggError
  | ConfigurationError : String → AggError
deriving DecidableEq

/-- A tagged, named pandas Series result: the series name (`rename`),
the index name (`result.index.name`) and the index/value pairs in order.
A `NaN` value is `none`. -/
structure Series where
  name : String
  index_name : String
  values : List (String × Option ℚ)
deriving DecidableEq

/-- Lowercasing of a string, as `str.lower()` (`Char`-wise). -/
def strLower (s : String) : String := String.mk (s.data.map Char.toLower)

/-- `ft` is a prefix of `s`, as python `s.startswith(ft)`. -/
def strStartswith (s ft : String) : Bool := List.isPrefixOf ft.data s.data

/-- Split a character list on all occurrences of the underscore, like
python `str.split('_')` (in particular, splitting the empty string
yields one empty chunk). -/
def splitUnd : List Char → List (List Char)
  | [] => [[]]
  | c :: cs =>
    if c = '_' then [] :: splitUnd cs
    else
      match splitUnd cs with
      | [] => [[c]]
      | w :: ws => (c :: w) :: ws

/-- Python `str.capitalize`: first character upper-cased, the rest
lower-cased. -/
def pyCapitalizeChars : List Char → List Char
  | [] => []
  | c :: cs => c.toUpper :: cs.map Char.toLower

/-- The source helper `_capitalize`: capitalize each underscore-separated
chunk and join the chunks. -/
def pyJoinCapitalize (s : String) : String :=
  String.mk (((splitUnd s.data).map pyCapitalizeChars).flatten)

/-- Python `x or 'Concept'` on the capitalized type filter: the empty
string is falsy. -/
def orDefault (s dflt : String) : String := if s = "" then dflt else s

/-- Python `sentiment_value.abs()` on an exact rational. -/
def absQ (q : ℚ) : ℚ := if q < 0 then -q else q

/-- pandas `groupby(key)[val].sum()`: one pair per distinct key with the
sum of `val` over that key's rows.  Rows within one group, and the group
keys themselves, carry no order that any verified claim depends on. -/
def groupSum {α : Type} (key : α → String) (val : α → ℚ) (rows : List α) :
    List (String × ℚ) :=
  ((rows.map key).dedup).map
    (fun k => (k, ((rows.filter (fun r => key r == k)).map val).sum))

/-- pandas `groupby(key)[val].mean()`: per distinct key, sum of values
over the group divided by the group size. -/
def groupMean {α : Type} (key : α → String) (val : α → ℚ) (rows : List α) :
    List (String × ℚ) :=
  ((rows.map key).dedup).map
    (fun k =>
      (k, ((rows.filter (fun r => key r == k)).map val).sum /
        (((rows.filter (fun r => key r == k)).length : ℚ))))

/-- Lookup of a key in a grouped result (`Series.get` / `reindex` of one
label): `none` models the `NaN` of a failed lookup. -/
def lookupVal (pairs : List (String × ℚ)) (k : String) : Option ℚ :=
  (pairs.find? (fun p => p.1 == k)).map (fun p => p.2)

/-- `sort_values(ascending=False)` on a keyed numeric column. -/
def sortDesc (l : List (String × ℚ)) : List (String × ℚ) :=
  l.insertionSort (fun a b => b.2 ≤ a.2)

/-- `sort_values()` (ascending) on a keyed numeric column. -/
def sortAsc (l : List (String × ℚ)) : List (String × ℚ) :=
  l.insertionSort (fun a b => a.2 ≤ b.2)

/-- `sort_values(column, ascending=False)` under an arbitrary numeric
projection. -/
def sortDescBy {α : Type} (f : α → ℚ) (l : List α) : List α :=
  l.insertionSort (fun a b => f b ≤ f a)

instance : IsTotal (String × ℚ) (fun a b => b.2 ≤ a.2) :=
  ⟨fun a b => le_total b.2 a.2⟩

instance : IsTrans (String × ℚ) (fun a b => b.2 ≤ a.2) :=
  ⟨fun _ _ _ h₁ h₂ => le_trans h₂ h₁⟩

/-- pandas `value_counts`: count rows per key, sort by count (descending
unless `ascending`), and divide every count by the total number of rows
when `normalize` is set. -/
def value_counts {α : Type} (key : α → String) (normalize ascending : Bool)
    (rows : List α) : List (String × ℚ) :=
  let counts := groupSum key (fun _ => (1 : ℚ)) rows
  let counts := if ascending then sortAsc counts else sortDesc counts
  if normalize then counts.map (fun p => (p.1, p.2 / (rows.length : ℚ)))
  else counts

/-- `ConceptsDataset.__init__` state: the `concepts` table (required by
most queries) and the `concept_surface_strings` table. -/
structure ConceptsDataset where
  _concepts : Option (List ConceptRow)
  _surface_strings : Option (List SurfaceRow)
deriving DecidableEq

/-- The `_concept_filter` set built by `ConceptsDataset.__init__`: the
distinct `concept_type` values of the wrapped data plus the empty
string (only membership in it is ever used). -/
def ConceptsDataset.concept_filter (d : ConceptsDataset) : List String :=
  match d._concepts with
  | some con => "" :: ((con.map (fun r => r.concept_type)).dedup)
  | none => [""]

/-- The `concept_type` restriction step shared by every `ConceptsDataset`
query: `if concept_type: con = con[con.concept_type == concept_type]` —
an exact (not prefix) match, skipped for the falsy empty string. -/
def conceptTypeFiltered (con : List ConceptRow) (concept_type : String) :
    List ConceptRow :=
  if concept_type = "" then con
  else con.filter (fun r => r.concept_type == concept_type)

/-- `ConceptsDataset.concept_frequency` (source lines 52-107) for a
list/tuple argument: group-sum `freq` of the requested concepts inside
the type-filtered table, reindex by the request (missing names become
`NaN`, replaced by 0), and divide by the filtered total when
`normalize` is set.  Since `freq` counts are non-negative, the division
yields pandas `NaN` (here `none`) exactly when the filtered total is 0. -/
def ConceptsDataset.concept_frequency (d : ConceptsDataset)
    (concept : List String) (concept_type : String) (normalize : Bool) :
    Except AggError Series :=
  match d._concepts with
  | none => .error (.NoRelevantData "Relevant concept data is not available!")
  | some con0 =>
    if d.concept_filter.contains concept_type = false then
      .error (.InvalidArgument (concept_type ++ " is not valid filter string"))
    else
      let con := conceptTypeFiltered con0 concept_type
      let counts := groupSum (fun r => r.concept) (fun r => (r.freq : ℚ))
        (con.filter (fun r => concept.contains r.concept))
      let reindexed := concept.map (fun c => (c, (lookupVal counts c).getD 0))
      let values :=
        if normalize then
          let size : ℚ := (con.map (fun r => (r.freq : ℚ))).sum
          reindexed.map (fun p => (p.1, if size == 0 then none else some (p.2 / size)))
        else
          reindexed.map (fun p => (p.1, some p.2))
      .ok ⟨"Count", orDefault (pyJoinCapitalize concept_type) "Concept", values⟩

/-- `ConceptsDataset.most_common_concepts` (source lines 109-143):
group-sum `freq` in the type-filtered table, sort descending, truncate
to `n`, optionally divide by the filtered total. -/
def ConceptsDataset.most_common_concepts (d : ConceptsDataset)
    (n : Nat) (concept_type : String) (normalize : Bool) :
    Except AggError Series :=
  match d._concepts with
  | none => .error (.NoRelevantData "Relevant concept data is not available!")
  | some con0 =>
    if d.concept_filter.contains concept_type = false then
      .error (.InvalidArgument (concept_type ++ " is not valid filter string"))
    else
      let con := conceptTypeFiltered con0 concept_type
      let con_counts := groupSum (fun r => r.concept) (fun r => (r.freq : ℚ)) con
      let result := (sortDesc con_counts).take n
      let values :=
        if normalize then
          let size : ℚ := (con.map (fun r => (r.freq : ℚ))).sum
          result.map (fun p => (p.1, if size == 0 then none else some (p.2 / size)))
        else
          result.map (fun p => (p.1, some p.2))
      .ok ⟨"Count", orDefault (pyJoinCapitalize concept_type) "Concept", values⟩

/-- `ConceptsDataset.least_common_concepts` (source lines 145-179): as
`most_common_concepts` but sorted ascending. -/
def ConceptsDataset.least_common_concepts (d : ConceptsDataset)
    (n : Nat) (concept_type : String) (normalize : Bool) :
    Except AggError Series :=
  match d._concepts with
  | none => .error (.NoRelevantData "Relevant concept data is not available!")
  | some con0 =>
    if d.concept_filter.contains concept_type = false then
      .error (.InvalidArgument (concept_type ++ " is not valid filter string"))
    else
      let con := conceptTypeFiltered con0 concept_type
      let con_counts := groupSum (fun r => r.concept) (fun r => (r.freq : ℚ)) con
      let result := (sortAsc con_counts).take n
      let values :=
        if normalize then
          let size : ℚ := (con.map (fun r => (r.freq : ℚ))).sum
          result.map (fun p => (p.1, if size == 0 then none else some (p.2 / size)))
        else
          result.map (fun p => (p.1, some p.2))
      .ok ⟨"Count", orDefault (pyJoinCapitalize concept_type) "Concept", values⟩

/-- `ConceptsDataset.co_occurring_concepts` (source lines 181-225): the
rows realizing `concept` (case-insensitively) give the occurrence list
of `(doc_id, text_order)` pairs; these pairs are NOT deduplicated, and
joining them against the type-filtered table (minus the queried concept
itself) yields one copy of every co-occurring row per occurrence of the
queried concept in the same text.  Group-sum `freq`, sort descending,
truncate to `n`.  An unseen concept gives an empty correctly-named
series. -/
def ConceptsDataset.co_occurring_concepts (d : ConceptsDataset)
    (concept : String) (n : Nat) (concept_type : String) :
    Except AggError Series :=
  match d._concepts with
  | none => .error (.NoRelevantData "Relevant concept data is not available!")
  | some con =>
    if d.concept_filter.contains concept_type = false then
      .error (.InvalidArgument (concept_type ++ " is not valid filter string"))
    else
      let identity := fun (r : ConceptRow) => strLower r.concept == strLower concept
      let relevant_texts := (con.filter identity).map (fun r => (r.doc_id, r.text_order))
      let index_name := orDefault (pyJoinCapitalize concept_type) "Concept"
      if relevant_texts.length ≠ 0 then
        let con2 := (conceptTypeFiltered con concept_type).filter (fun r => !(identity r))
        let joined := relevant_texts.flatMap
          (fun dt => con2.filter (fun r => (r.doc_id, r.text_order) == dt))
        let con_counts := groupSum (fun r => r.concept) (fun r => (r.freq : ℚ)) joined
        .ok ⟨"Count", index_name,
          ((sortDesc con_counts).take n).map (fun p => (p.1, some p.2))⟩
      else
        .ok ⟨"Count", index_name, []⟩

/-- `ConceptsDataset.concept_frequencies` (source lines 351-394):
type-filter, apply the optional concept predicate, group-sum `freq`,
sort ascending and keep the tail of `max_concepts` entries. -/
def ConceptsDataset.concept_frequencies (d : ConceptsDataset)
    (max_concepts : Nat) (concept_type : String)
    (concept_filter : Option (String → Bool)) :
    Except AggError (List (String × ℚ)) :=
  match d._concepts with
  | none => .error (.NoRelevantData "Relevant concept data is not available!")
  | some con0 =>
    if d.concept_filter.contains concept_type = false then
      .error (.InvalidArgument (concept_type ++ " is not valid filter string"))
    else
      let con := conceptTypeFiltered con0 concept_type
      let con := match concept_filter with
        | none => con
        | some f => con.filter (fun r => f r.concept)
      let data := sortAsc (groupSum (fun r => r.concept) (fun r => (r.freq : ℚ)) con)
      .ok (data.drop (data.length - max_concepts))

/-- `ConceptsDataset.frequency_relevance` (source lines 397-423): per
concept the summed `freq` and mean `relevance_score`; rank by mean
relevance and keep `n` when no concept list is given (python truthiness:
an empty list counts as not given), else reindex by the given list,
dropping concepts with no relevance data. -/
def ConceptsDataset.frequency_relevance (d : ConceptsDataset)
    (concepts : Option (List String)) (n : Nat) (concept_type : String) :
    Except AggError (List (String × ℚ × ℚ)) :=
  match d._concepts with
  | none => .error (.NoRelevantData "Relevant concept data is not available!")
  | some con0 =>
    if d.concept_filter.contains concept_type = false then
      .error (.InvalidArgument (concept_type ++ " is not valid filter string"))
    else
      let truthy := match concepts with
        | some cs => !(cs.isEmpty)
        | none => false
      let con := conceptTypeFiltered con0 concept_type
      let con := if truthy then
          con.filter (fun r => (concepts.getD []).contains r.concept)
        else con
      let result := ((con.map (fun r => r.concept)).dedup).map
        (fun k =>
          (k, (((con.filter (fun r => r.concept == k)).map (fun r => (r.freq : ℚ))).sum,
            ((con.filter (fun r => r.concept == k)).map (fun r => r.relevance_score)).sum /
              (((con.filter (fun r => r.concept == k)).length : ℚ)))))
      if truthy then
        .ok ((concepts.getD []).filterMap
          (fun c => (result.find? (fun t => t.1 == c)).map (fun t => t)))
      else
        .ok ((sortDescBy (fun t => t.2.2) result).take n)

/-- `ConceptsDataset.surface_forms` (source lines 425-439): up to `n`
distinct surface strings of the concept, matched case-insensitively. -/
def ConceptsDataset.surface_forms (d : ConceptsDataset)
    (concept : String) (n : Nat) : Except AggError (List String) :=
  match d._surface_strings with
  | none => .error (.NoRelevantData "Relevant surface data is not available!")
  | some data =>
    let data := data.filter (fun r => strLower r.concept == strLower concept)
    .ok (((data.map (fun r => r.surface_string)).dedup).take n)

/-- `ABSADataset.__init__` state: the six ABSA tables. -/
structure ABSADataset where
  _entities : Option (List EntityRow)
  _normalized_texts : Option (List NormalizedTextRow)
  _relations : Option (List RelationRow)
  _relations_entities : Option (List RelationEntityRow)
  _evaluations : Option (List EvaluationRow)
  _evaluations_entities : Option (List EvaluationEntityRow)
deriving DecidableEq

/-- The `entity_type` restriction step shared by every `ABSADataset`
query: `rows[rows.entity_type.str.startswith(entity_type)]` — a PREFIX
match (the empty filter keeps everything), applied unconditionally and
never validated against the observed types. -/
def absaTypeFiltered {α : Type} (entity_type : String) (getType : α → String)
    (rows : List α) : List α :=
  rows.filter (fun r => strStartswith (getType r) entity_type)

/-- `ABSADataset.entity_frequency` (source lines 539-583) for a
list/tuple argument: prefix-filter by `entity_type`, `value_counts` the
entity names (already normalized inside `value_counts` when asked),
reindex by the request and replace the `NaN` of missing names by 0. -/
def ABSADataset.entity_frequency (d : ABSADataset) (entity : List String)
    (entity_type : String) (normalize : Bool) : Except AggError Series :=
  match d._entities with
  | none => .error (.NoRelevantData "Relevant entities data is not available!")
  | some ents0 =>
    let ents := absaTypeFiltered entity_type (fun r => r.entity_type) ents0
    let counts := value_counts (fun r => r.entity_name) normalize false ents
    let values := entity.map (fun e => (e, some ((lookupVal counts e).getD 0)))
    .ok ⟨"Count", orDefault (pyJoinCapitalize entity_type) "Entity", values⟩

/-- `ABSADataset.most_common_entities` (source lines 585-612):
prefix-filter, `value_counts` descending, truncate to `n`. -/
def ABSADataset.most_common_entities (d : ABSADataset) (n : Nat)
    (entity_type : String) (normalize : Bool) : Except AggError Series :=
  match d._entities with
  | none => .error (.NoRelevantData "Relevant entity data is not available!")
  | some ent0 =>
    let ent := absaTypeFiltered entity_type (fun r => r.entity_type) ent0
    let result := (value_counts (fun r => r.entity_name) normalize false ent).take n
    .ok ⟨"Count", orDefault (pyJoinCapitalize entity_type) "Entity",
      result.map (fun p => (p.1, some p.2))⟩

/-- `ABSADataset.least_common_entities` (source lines 614-640):
prefix-filter, `value_counts` ascending, truncate to `n`. -/
def ABSADataset.least_common_entities (d : ABSADataset) (n : Nat)
    (entity_type : String) (normalize : Bool) : Except AggError Series :=
  match d._entities with
  | none => .error (.NoRelevantData "Relevant entity data is not available!")
  | some ent0 =>
    let ent := absaTypeFiltered entity_type (fun r => r.entity_type) ent0
    let result := (value_counts (fun r => r.entity_name) normalize true ent).take n
    .ok ⟨"Count", orDefault (pyJoinCapitalize entity_type) "Entity",
      result.map (fun p => (p.1, some p.2))⟩

/-- `ABSADataset.co_occurring_entities` (source lines 642-684): unlike
the concept analogue, the `(doc_id, text_order)` occurrence pairs ARE
deduplicated (`drop_duplicates`) before the join; counting is by row
count (`size`), not a `freq` sum. -/
def ABSADataset.co_occurring_entities (d : ABSADataset) (entity : String)
    (n : Nat) (entity_type : String) : Except AggError Series :=
  match d._entities with
  | none => .error (.NoRelevantData "Relevant entity data is not available!")
  | some ent =>
    let index_name := orDefault (pyJoinCapitalize entity_type) "Entity"
    let entity_filter := fun (r : EntityRow) => strLower r.entity_name == strLower entity
    let docs := ((ent.filter entity_filter).map (fun r => (r.doc_id, r.text_order))).dedup
    if docs.isEmpty then
      .ok ⟨"Count", index_name, []⟩
    else
      let ent2 := (absaTypeFiltered entity_type (fun r => r.entity_type) ent).filter
        (fun r => !(entity_filter r))
      let joined := docs.flatMap
        (fun dt => ent2.filter (fun r => (r.doc_id, r.text_order) == dt))
      if joined.isEmpty then
        .ok ⟨"Count", index_name, []⟩
      else
        let result := groupSum (fun r => r.entity_name) (fun _ => (1 : ℚ)) joined
        .ok ⟨"Count", index_name,
          ((sortDesc result).take n).map (fun p => (p.1, some p.2))⟩

/-- The inner merge of the valid (non-sentinel) relations with the
relations-entities join table on `(doc_id, text_order, relation_id)`,
shared by `best_rated_entities`, `worst_rated_entities` and
`entity_sentiment`.  (`worst_rated_entities` uses a left `join` in the
source; its unmatched left rows carry no entity name and are dropped by
the subsequent type filter and grouping, so the inner merge is the
common semantics.) -/
def relationsMerge (rels : List RelationRow) (ents : List RelationEntityRow) :
    List (RelationRow × RelationEntityRow) :=
  rels.flatMap (fun r =>
    (ents.filter (fun e =>
      e.doc_id == r.doc_id && e.text_order == r.text_order &&
        e.relation_id == r.relation_id)).map (fun e => (r, e)))

/-- `ABSADataset.best_rated_entities` (source lines 686-711): drop the
sentinel relations (`abs(sentiment_value) >= 100`), merge with the
relations-entities table, prefix-filter the entity type, mean sentiment
per entity name, sort descending, truncate to `n`. -/
def ABSADataset.best_rated_entities (d : ABSADataset) (n : Nat)
    (entity_type : String) : Except AggError Series :=
  match d._relations, d._relations_entities with
  | some rels0, some ents =>
    let rels := rels0.filter (fun r => decide (absQ r.sentiment_value < 100))
    let ent_evals := absaTypeFiltered entity_type (fun p => p.2.entity_type)
      (relationsMerge rels ents)
    let mean_evals := groupMean (fun p => p.2.entity_name)
      (fun p => p.1.sentiment_value) ent_evals
    let result := (sortDesc mean_evals).take n
    .ok ⟨"Sentiment", orDefault (pyJoinCapitalize entity_type) "Entity",
      result.map (fun p => (p.1, some p.2))⟩
  | _, _ => .error (.NoRelevantData "Relevant relation data is not available!")

/-- `ABSADataset.worst_rated_entities` (source lines 713-738): as
`best_rated_entities` but sorted ascending. -/
def ABSADataset.worst_rated_entities (d : ABSADataset) (n : Nat)
    (entity_type : String) : Except AggError Series :=
  match d._relations, d._relations_entities with
  | some rels0, some ents =>
    let rels := rels0.filter (fun r => decide (absQ r.sentiment_value < 100))
    let ent_evals := absaTypeFiltered entity_type (fun p => p.2.entity_type)
      (relationsMerge rels ents)
    let mean_evals := groupMean (fun p => p.2.entity_name)
      (fun p => p.1.sentiment_value) ent_evals
    let result := (sortAsc mean_evals).take n
    .ok ⟨"Sentiment", orDefault (pyJoinCapitalize entity_type) "Entity",
      result.map (fun p => (p.1, some p.2))⟩
  | _, _ => .error (.NoRelevantData "Relevant relation data is not available!")

/-- `ABSADataset.entity_sentiment` (source lines 795-824) for a
list/tuple argument: drop the sentinel relations, merge, restrict to the
requested entity names, mean sentiment per entity, reindex by the
request (`NaN`, i.e. `none`, for entities with no valid rating). -/
def ABSADataset.entity_sentiment (d : ABSADataset) (entity : List String) :
    Except AggError Series :=
  match d._relations, d._relations_entities with
  | some rels0, some ents =>
    let rels := rels0.filter (fun r => decide (absQ r.sentiment_value < 100))
    let all_ent_evals := relationsMerge rels ents
    let entity_evals := all_ent_evals.filter (fun p => entity.contains p.2.entity_name)
    let means := groupMean (fun p => p.2.entity_name)
      (fun p => p.1.sentiment_value) entity_evals
    .ok ⟨"Sentiment", "Entity", entity.map (fun e => (e, lookupVal means e))⟩
  | _, _ => .error (.NoRelevantData "Relevant relation data is not available!")

/-- `DatasetLoader` state: the four availability flags computed by
`__init__` and the ten tables. -/
structure DatasetLoader where
  has_categories : Bool
  has_concepts : Bool
  has_sentiments : Bool
  has_absa : Bool
  _concepts : Option (List ConceptRow)
  _concepts_surface_strings : Option (List SurfaceRow)
  _categories : Option (List CategoryRow)
  _sentiments : Option (List SentimentRow)
  _absa_entities : Option (List EntityRow)
  _absa_normalized_texts : Option (List NormalizedTextRow)
  _absa_relations : Option (List RelationRow)
  _absa_relations_entities : Option (List RelationEntityRow)
  _absa_evaluations : Option (List EvaluationRow)
  _absa_evaluations_entities : Option (List EvaluationEntityRow)
deriving DecidableEq

/-- `DatasetLoader.__init__` (source lines 830-904): compute the four
availability flags (`concepts` needs the concepts table OR the
surface-strings table; `absa` needs at least one of the six ABSA
tables), fail with the configuration `ValueError` when no group has
data, and store each group's tables only when its flag is set. -/
def DatasetLoader.init (concepts : Option (List ConceptRow))
    (concepts_surface_strings : Option (List SurfaceRow))
    (categories : Option (List CategoryRow))
    (sentiments : Option (List SentimentRow))
    (absa_entities : Option (List EntityRow))
    (absa_normalized_texts : Option (List NormalizedTextRow))
    (absa_relations : Option (List RelationRow))
    (absa_relations_entities : Option (List RelationEntityRow))
    (absa_evaluations : Option (List EvaluationRow))
    (absa_evaluations_entities : Option (List EvaluationEntityRow)) :
    Except AggError DatasetLoader :=
  let has_categories := categories.isSome
  let has_concepts := concepts.isSome || concepts_surface_strings.isSome
  let has_sentiments := sentiments.isSome
  let has_absa := absa_entities.isSome || absa_normalized_texts.isSome ||
    absa_relations.isSome || absa_relations_entities.isSome ||
    absa_evaluations.isSome || absa_evaluations_entities.isSome
  if has_categories || has_concepts || has_sentiments || has_absa then
    .ok ⟨has_categories, has_concepts, has_sentiments, has_absa,
      (if has_concepts then concepts else none),
      (if has_concepts then concepts_surface_strings else none),
      (if has_categories then categories else none),
      (if has_sentiments then sentiments else none),
      (if has_absa then absa_entities else none),
      (if has_absa then absa_normalized_texts else none),
      (if has_absa then absa_relations else none),
      (if has_absa then absa_relations_entities else none),
      (if has_absa then absa_evaluations else none),
      (if has_absa then absa_evaluations_entities else none)⟩
  else
    .error (.ConfigurationError
      "No data provided. Please provide at least one valid argument")

/-- The `concepts` property (source lines 949-959): a fresh
`ConceptsDataset` when the group is available, else `NoRelevantData`. -/
def DatasetLoader.concepts (l : DatasetLoader) : Except AggError ConceptsDataset :=
  if l.has_concepts then
    .ok ⟨l._concepts, l._concepts_surface_strings⟩
  else
    .error (.NoRelevantData "Concepts data not available!")

/-- The `absa` property (source lines 983-996). -/
def DatasetLoader.absa (l : DatasetLoader) : Except AggError ABSADataset :=
  if l.has_absa then
    .ok ⟨l._absa_entities, l._absa_normalized_texts, l._absa_relations,
      l._absa_relations_entities, l._absa_evaluations, l._absa_evaluations_entities⟩
  else
    .error (.NoRelevantData "ABSA data is not available!")

/-- `DatasetLoader.remove_concepts` (source lines 934-947): in-place
mutation, modelled as the state after the call: the concepts and
surface-strings tables (when non-null) lose the rows whose concept is in
the given collection (the python `set(concepts)` is used only for
membership); all other fields are untouched. -/
def DatasetLoader.remove_concepts (l : DatasetLoader) (concepts : List String) :
    DatasetLoader :=
  ⟨l.has_categories, l.has_concepts, l.has_sentiments, l.has_absa,
    (match l._concepts with
      | none => none
      | some con => some (con.filter (fun r => !(concepts.contains r.concept)))),
    (match l._concepts_surface_strings with
      | none => none
      | some exp => some (exp.filter (fun r => !(concepts.contains r.concept)))),
    l._categories, l._sentiments, l._absa_entities, l._absa_normalized_texts,
    l._absa_relations, l._absa_relations_entities, l._absa_evaluations,
    l._absa_evaluations_entities⟩

/-- The per-table document restriction `f` of `DatasetLoader.filter`:
null tables pass through as null, otherwise keep the rows whose
`doc_id` is among the requested ids. -/
def filterFrame {α : Type} (key : α → Nat) (ids : List Nat) :
    Option (List α) → Option (List α)
  | none => none
  | some rows => some (rows.filter (fun r => ids.contains (key r)))

/-- `DatasetLoader.filter` (source lines 1082-1110): reject an empty id
collection with the `ValueError` modelled as `InvalidArgument` (before
any table is touched), else construct a new loader from the ten
restricted tables (the python `set(document_ids)` is used only for
emptiness and membership). -/
def DatasetLoader.filter (l : DatasetLoader) (document_ids : List Nat) :
    Except AggError DatasetLoader :=
  if document_ids.isEmpty then
    .error (.InvalidArgument "Cannot use empty filter")
  else
    DatasetLoader.init
      (filterFrame ConceptRow.doc_id document_ids l._concepts)
      (filterFrame SurfaceRow.doc_id document_ids l._concepts_surface_strings)
      (filterFrame CategoryRow.doc_id document_ids l._categories)
      (filterFrame SentimentRow.doc_id document_ids l._sentiments)
      (filterFrame EntityRow.doc_id document_ids l._absa_entities)
      (filterFrame NormalizedTextRow.doc_id document_ids l._absa_normalized_texts)
      (filterFrame RelationRow.doc_id document_ids l._absa_relations)
      (filterFrame RelationEntityRow.doc_id document_ids l._absa_relations_entities)
      (filterFrame EvaluationRow.doc_id document_ids l._absa_evaluations)
      (filterFrame EvaluationEntityRow.doc_id document_ids l._absa_evaluations_entities)

/-- Spec-side reading of `co_occurring_concepts` counts (the claim's
words): for a candidate concept `c`, the sum of `freq` over the rows
whose `(doc_id, text_order)` pair belongs to the SET of pairs in which
the queried concept occurs (case-insensitively), excluding the queried
concept's own rows and rows failing the type filter.  Used only to
compare against the implementation, which weights by occurrence
multiplicity instead. -/
def coOccurSetCount (con : List ConceptRow) (concept : String)
    (concept_type : String) (c : String) : ℚ :=
  (((conceptTypeFiltered con concept_type).filter
      (fun r => !(strLower r.concept == strLower concept) && r.concept == c &&
        (con.filter (fun q => strLower q.concept == strLower concept &&
          q.doc_id == r.doc_id && q.text_order == r.text_order)) ≠ [])).map
    (fun r => (r.freq : ℚ))).sum

/-- Number of occurrences of the queried concept (case-insensitive) in
one `(doc_id, text_order)` text, as a rational weight. -/
def occCountAt (con : List ConceptRow) (concept : String) (i t : Nat) : ℚ :=
  (((con.filter (fun r => strLower r.concept == strLower concept &&
    r.doc_id == i && r.text_order == t)).length : ℚ))

/-- The multiplicity-weighted co-occurrence count the implementation
actually computes for a candidate concept `c`: each co-occurring row's
`freq` is counted once per occurrence of the queried concept in the same
text. -/
def coOccurMultCount (con : List ConceptRow) (concept : String)
    (concept_type : String) (c : String) : ℚ :=
  ((((conceptTypeFiltered con concept_type).filter
      (fun r => !(strLower r.concept == strLower concept) && r.concept == c)).map
    (fun r => (r.freq : ℚ) * occCountAt con concept r.doc_id r.text_order)).sum)

/-- Concrete concepts row with `doc_id = 3`, used by the loader
examples. -/
def conRow3 : ConceptRow := ⟨3, 0, "A", 1, 1, "t"⟩

/-- Concrete concepts row with `doc_id = 4`, used by the loader
examples. -/
def conRow4 : ConceptRow := ⟨4, 0, "B", 1, 1, "t"⟩

/-- A loader wrapping a two-document concepts table. -/
def loaderEx9 : DatasetLoader :=
  ⟨false, true, false, false, some [conRow3, conRow4], none, none, none,
    none, none, none, none, none, none⟩

/-- `loaderEx9` restricted to document 3. -/
def loaderEx9F : DatasetLoader :=
  ⟨false, true, false, false, some [conRow3], none, none, none,
    none, none, none, none, none, none⟩

theorem filter_middle {α : Type} (p : α → Bool) (l₁ l₂ : List α) (r : α)
    (h : p r = false) :
    (l₁ ++ r :: l₂).filter p = (l₁ ++ l₂).filter p := by
  simp [List.filter_append, List.filter_cons, h]

/-- C1: rows of `absa_relations` whose `sentiment_value` has absolute
value at least 100 are sentinel: inserting such a row anywhere in the
relations table changes none of `best_rated_entities`,
`worst_rated_entities` and `entity_sentiment`, so every mean these
methods return is computed only over rows with `abs(sentiment_value)
< 100`. -/
theorem C1_sentinel_exclusion
    (rels₁ rels₂ : List RelationRow) (r : RelationRow)
    (rents : List RelationEntityRow) (oe : Option (List EntityRow))
    (ont : Option (List NormalizedTextRow)) (oev : Option (List EvaluationRow))
    (oee : Option (List EvaluationEntityRow)) (n : Nat) (ft : String)
    (names : List String)
    (h : 100 ≤ absQ r.sentiment_value) :
    (ABSADataset.mk oe ont (some (rels₁ ++ r :: rels₂)) (some rents) oev oee).best_rated_entities n ft
      = (ABSADataset.mk oe ont (some (rels₁ ++ rels₂)) (some rents) oev oee).best_rated_entities n ft
    ∧ (ABSADataset.mk oe ont (some (rels₁ ++ r :: rels₂)) (some rents) oev oee).worst_rated_entities n ft
      = (ABSADataset.mk oe ont (some (rels₁ ++ rels₂)) (some rents) oev oee).worst_rated_entities n ft
    ∧ (ABSADataset.mk oe ont (some (rels₁ ++ r :: rels₂)) (some rents) oev oee).entity_sentiment names
      = (ABSADataset.mk oe ont (some (rels₁ ++ rels₂)) (some rents) oev oee).entity_sentiment names := by
  have hfalse : (decide (absQ r.sentiment_value < 100)) = false :=
    decide_eq_false_iff_not.mpr (not_lt.mpr h)
  have hfilter :
      (rels₁ ++ r :: rels₂).filter (fun x => decide (absQ x.sentiment_value < 100))
        = (rels₁ ++ rels₂).filter (fun x => decide (absQ x.sentiment_value < 100)) :=
    filter_middle _ _ _ _ hfalse
  refine ⟨?_, ?_, ?_⟩ <;>
    simp only [ABSADataset.best_rated_entities, ABSADataset.worst_rated_entities,
      ABSADataset.entity_sentiment, hfilter]

theorem C1_sentinel_exclusion_witness :
    (100 : ℚ) ≤ absQ (150 : ℚ)
    ∧ ((ABSADataset.mk none none
        (some [⟨0, 0, 0, "", "", 150, false, ""⟩, ⟨0, 0, 1, "", "", 2, false, ""⟩])
        (some [⟨0, 0, 1, "feature", "Safety"⟩]) none none).best_rated_entities 15 ""
      = (ABSADataset.mk none none (some [⟨0, 0, 1, "", "", 2, false, ""⟩])
        (some [⟨0, 0, 1, "feature", "Safety"⟩]) none none).best_rated_entities 15 "") :=
  ⟨by decide,
    (C1_sentinel_exclusion [] [⟨0, 0, 1, "", "", 2, false, ""⟩]
      ⟨0, 0, 0, "", "", 150, false, ""⟩ [⟨0, 0, 1, "feature", "Safety"⟩]
      none none none none 15 "" [] (by decide)).1⟩

/-- C7: querying `co_occurring_concepts` for a concept that occurs
nowhere in the table (case-insensitively) returns a zero-length series
named `Count` with the index name computed from the type filter, and
raises nothing. -/
theorem C7_empty_cooccurrence (con : List ConceptRow)
    (ss : Option (List SurfaceRow)) (concept : String) (n : Nat) (ct : String)
    (hv : (ConceptsDataset.mk (some con) ss).concept_filter.contains ct = true)
    (habs : con.filter (fun r => strLower r.concept == strLower concept) = []) :
    (ConceptsDataset.mk (some con) ss).co_occurring_concepts concept n ct =
      .ok ⟨"Count", orDefault (pyJoinCapitalize ct) "Concept", []⟩ := by
  simp [ConceptsDataset.co_occurring_concepts, hv, habs]
  simpa using hv

theorem C7_empty_cooccurrence_witness :
    (ConceptsDataset.mk (some [⟨0, 0, "Lenovo", 1, 1, "brand"⟩]) none).concept_filter.contains "" = true
    ∧ (ConceptsDataset.mk (some [⟨0, 0, "Lenovo", 1, 1, "brand"⟩]) none).co_occurring_concepts "Ghost" 5 "" =
        .ok ⟨"Count", orDefault (pyJoinCapitalize "") "Concept", []⟩ :=
  ⟨by decide,
    C7_empty_cooccurrence [⟨0, 0, "Lenovo", 1, 1, "brand"⟩] none "Ghost" 5 ""
      (by decide) (by decide)⟩

/-- C10: `remove_concepts` leaves the loader in the state where the
concepts table and the surface-strings table (each when non-null) have
exactly their previous rows whose concept is not among the given names,
while the other eight tables and the four availability flags are
unchanged. -/
theorem C10_remove_concepts (l : DatasetLoader) (cs : List String) :
    (l.remove_concepts cs)._concepts
        = Option.map (fun con => con.filter (fun r => !(cs.contains r.concept))) l._concepts
    ∧ (l.remove_concepts cs)._concepts_surface_strings
        = Option.map (fun exp => exp.filter (fun r => !(cs.contains r.concept))) l._concepts_surface_strings
    ∧ (l.remove_concepts cs).has_categories = l.has_categories
    ∧ (l.remove_concepts cs).has_concepts = l.has_concepts
    ∧ (l.remove_concepts cs).has_sentiments = l.has_sentiments
    ∧ (l.remove_concepts cs).has_absa = l.has_absa
    ∧ (l.remove_concepts cs)._categories = l._categories
    ∧ (l.remove_concepts cs)._sentiments = l._sentiments
    ∧ (l.remove_concepts cs)._absa_entities = l._absa_entities
    ∧ (l.remove_concepts cs)._absa_normalized_texts = l._absa_normalized_texts
    ∧ (l.remove_concepts cs)._absa_relations = l._absa_relations
    ∧ (l.remove_concepts cs)._absa_relations_entities = l._absa_relations_entities
    ∧ (l.remove_concepts cs)._absa_evaluations = l._absa_evaluations
    ∧ (l.remove_concepts cs)._absa_evaluations_entities = l._absa_evaluations_entities := by
  obtain ⟨hcat, hcon, hsen, habs, oc, oss, ocat, osen, oae, oan, oar, oare, oae2, oaee⟩ := l
  cases oc <;> cases oss <;>
    simp [DatasetLoader.remove_concepts]

/-- C4 counterexample: a loader built from ONLY the surface-strings
table (concepts table null) nevertheless has the concepts group
available, and its `concepts` property returns a dataset instead of
raising `NoRelevantData` — refuting "available exactly when the concepts
table is non-null". -/
theorem C4_counterexample :
    (DatasetLoader.init none (some [⟨0, 0, "Lenovo", "lenovo"⟩]) none none
        none none none none none none).map (fun l => l.has_concepts) = .ok true
    ∧ ((DatasetLoader.init none (some [⟨0, 0, "Lenovo", "lenovo"⟩]) none none
        none none none none none none).bind DatasetLoader.concepts
      = .ok ⟨none, some [⟨0, 0, "Lenovo", "lenovo"⟩]⟩) := by
  constructor <;> rfl

/-- C4 amended: the concepts group is available exactly when the
concepts table OR the surface-strings table is non-null, and the
`concepts` property raises `NoRelevantData` exactly when the group is
unavailable. -/
theorem C4_amended (oc : Option (List ConceptRow)) (oss : Option (List SurfaceRow))
    (ocat : Option (List CategoryRow)) (osen : Option (List SentimentRow))
    (oae : Option (List EntityRow)) (oan : Option (List NormalizedTextRow))
    (oar : Option (List RelationRow)) (oare : Option (List RelationEntityRow))
    (oaev : Option (List EvaluationRow)) (oaee : Option (List EvaluationEntityRow))
    (l : DatasetLoader)
    (h : DatasetLoader.init oc oss ocat osen oae oan oar oare oaev oaee = .ok l) :
    l.has_concepts = (oc.isSome || oss.isSome)
    ∧ (l.has_concepts = false →
        l.concepts = .error (.NoRelevantData "Concepts data not available!"))
    ∧ (l.has_concepts = true →
        l.concepts = .ok ⟨l._concepts, l._concepts_surface_strings⟩) := by
  refine ⟨?_, ?_, ?_⟩
  · simp only [DatasetLoader.init] at h
    split at h
    · simp only [Except.ok.injEq] at h
      subst h
      rfl
    · exact absurd h (by simp)
  · intro hfalse
    simp [DatasetLoader.concepts, hfalse]
  · intro htrue
    simp [DatasetLoader.concepts, htrue]

theorem C4_amended_witness :
    loaderEx9.has_concepts
        = ((some [conRow3, conRow4] : Option (List ConceptRow)).isSome
          || (none : Option (List SurfaceRow)).isSome)
    ∧ (loaderEx9.has_concepts = false →
        loaderEx9.concepts = .error (.NoRelevantData "Concepts data not available!"))
    ∧ (loaderEx9.has_concepts = true →
        loaderEx9.concepts = .ok ⟨loaderEx9._concepts, loaderEx9._concepts_surface_strings⟩) :=
  C4_amended (some [conRow3, conRow4]) none none none none none none none none none
    loaderEx9 (by rfl)

/-- C3 counterexample: `entity_frequency` called with the type filter
`"bogusType"`, which is neither the empty string nor a type observed in
the wrapped data, returns a normal result instead of raising
`InvalidArgument`. -/
theorem C3_counterexample :
    ((([⟨0, 0, "Safety", "feature", "s"⟩] : List EntityRow).map
        (fun r => r.entity_type)).contains "bogusType") = false
    ∧ (ABSADataset.mk (some [⟨0, 0, "Safety", "feature", "s"⟩]) none none none
        none none).entity_frequency ["X"] "bogusType" false
      = .ok ⟨"Count", "Bogustype", [("X", some 0)]⟩ := by
  constructor
  · rfl
  · rfl

/-- C3 amended: the six `ConceptsDataset` queries (`concept_frequency`,
`most_common_concepts`, `least_common_concepts`,
`co_occurring_concepts`, `concept_frequencies`, `frequency_relevance`)
raise `InvalidArgument` for a type filter that is neither the empty
string nor an observed `concept_type`; the six `ABSADataset` entity
queries perform no such validation and return a normal result for every
`entity_type` string. -/
theorem C3_amended_validation :
    (∀ (con : List ConceptRow) (ss : Option (List SurfaceRow)) (ct : String)
      (names : List String) (n mx : Nat) (nm : Bool) (cOne : String)
      (cflt : Option (String → Bool)) (cList : Option (List String)),
      (ConceptsDataset.mk (some con) ss).concept_filter.contains ct = false →
        (ConceptsDataset.mk (some con) ss).concept_frequency names ct nm
            = .error (.InvalidArgument (ct ++ " is not valid filter string"))
        ∧ (ConceptsDataset.mk (some con) ss).most_common_concepts n ct nm
            = .error (.InvalidArgument (ct ++ " is not valid filter string"))
        ∧ (ConceptsDataset.mk (some con) ss).least_common_concepts n ct nm
            = .error (.InvalidArgument (ct ++ " is not valid filter string"))
        ∧ (ConceptsDataset.mk (some con) ss).co_occurring_concepts cOne n ct
            = .error (.InvalidArgument (ct ++ " is not valid filter string"))
        ∧ (ConceptsDataset.mk (some con) ss).concept_frequencies mx ct cflt
            = .error (.InvalidArgument (ct ++ " is not valid filter string"))
        ∧ (ConceptsDataset.mk (some con) ss).frequency_relevance cList n ct
            = .error (.InvalidArgument (ct ++ " is not valid filter string")))
    ∧ (∀ (d : ABSADataset) (ents : List EntityRow) (rels : List RelationRow)
        (rents : List RelationEntityRow) (ft : String) (names : List String)
        (n : Nat) (nm : Bool) (eOne : String),
        d._entities = some ents → d._relations = some rels →
        d._relations_entities = some rents →
        (∃ s, d.entity_frequency names ft nm = .ok s)
        ∧ (∃ s, d.most_common_entities n ft nm = .ok s)
        ∧ (∃ s, d.least_common_entities n ft nm = .ok s)
        ∧ (∃ s, d.co_occurring_entities eOne n ft = .ok s)
        ∧ (∃ s, d.best_rated_entities n ft = .ok s)
        ∧ (∃ s, d.worst_rated_entities n ft = .ok s)) := by
  constructor
  · intro con ss ct names n mx nm cOne cflt cList hv
    have hv' : ct ∉ (ConceptsDataset.mk (some con) ss).concept_filter := by
      simpa using hv
    refine ⟨?_, ?_, ?_, ?_, ?_, ?_⟩ <;>
      simp [ConceptsDataset.concept_frequency, ConceptsDataset.most_common_concepts,
        ConceptsDataset.least_common_concepts, ConceptsDataset.co_occurring_concepts,
        ConceptsDataset.concept_frequencies, ConceptsDataset.frequency_relevance, hv']
  · intro d ents rels rents ft names n nm eOne h1 h2 h3
    refine ⟨?_, ?_, ?_, ?_, ?_, ?_⟩
    · simp only [ABSADataset.entity_frequency, h1]
      exact ⟨_, rfl⟩
    · simp only [ABSADataset.most_common_entities, h1]
      exact ⟨_, rfl⟩
    · simp only [ABSADataset.least_common_entities, h1]
      exact ⟨_, rfl⟩
    · simp only [ABSADataset.co_occurring_entities, h1]
      split_ifs <;> exact ⟨_, rfl⟩
    · simp only [ABSADataset.best_rated_entities, h2, h3]
      exact ⟨_, rfl⟩
    · simp only [ABSADataset.worst_rated_entities, h2, h3]
      exact ⟨_, rfl⟩

theorem C3_amended_validation_witness :
    (ConceptsDataset.mk (some [⟨0, 0, "Lenovo", 1, 1, "brand"⟩]) none).concept_frequency [] "bogus" false
        = .error (.InvalidArgument ("bogus" ++ " is not valid filter string"))
    ∧ (∃ s, (ABSADataset.mk (some [⟨0, 0, "Safety", "feature", "s"⟩]) none (some [])
        (some []) none none).entity_frequency [] "bogus" false = .ok s) :=
  ⟨(C3_amended_validation.1 [⟨0, 0, "Lenovo", 1, 1, "brand"⟩] none "bogus" [] 0 0
      false "x" none none (by decide)).1,
    (C3_amended_validation.2
      (ABSADataset.mk (some [⟨0, 0, "Safety", "feature", "s"⟩]) none (some []) (some []) none none)
      [⟨0, 0, "Safety", "feature", "s"⟩] [] [] "bogus" [] 0 false "x" rfl rfl rfl).1⟩

theorem absaTypeFiltered_idem {α : Type} (ft : String) (g : α → String)
    (rows : List α) :
    absaTypeFiltered ft g (absaTypeFiltered ft g rows) = absaTypeFiltered ft g rows := by
  simp [absaTypeFiltered, List.filter_filter]

/-- C8: the `ABSADataset` entity queries keep a row exactly when its
`entity_type` STARTS WITH the filter string, while every
`ConceptsDataset` query with a non-empty `concept_type` filter keeps a
row exactly when its `concept_type` EQUALS the filter string; the two
semantics disagree on a filter that is a strict prefix of an observed
type (and pre-filtering the entities table by the prefix predicate is a
no-op for the entity queries). -/
theorem C8_filter_asymmetry :
    (∀ (α : Type) (ft : String) (getType : α → String) (rows : List α) (r : α),
      r ∈ absaTypeFiltered ft getType rows
        ↔ r ∈ rows ∧ strStartswith (getType r) ft = true)
    ∧ (∀ (ct : String) (rows : List ConceptRow) (r : ConceptRow), ct ≠ "" →
        (r ∈ conceptTypeFiltered rows ct ↔ r ∈ rows ∧ r.concept_type = ct))
    ∧ (∀ (d : ABSADataset) (ents : List EntityRow) (names : List String)
        (ft : String) (nm : Bool),
        d._entities = some ents →
        d.entity_frequency names ft nm
          = (ABSADataset.mk (some (absaTypeFiltered ft (fun r => r.entity_type) ents))
              d._normalized_texts d._relations d._relations_entities d._evaluations
              d._evaluations_entities).entity_frequency names ft nm)
    ∧ (strStartswith "brand" "bra" = true
        ∧ ((("bra" : String) = "brand") ↔ False)
        ∧ conceptTypeFiltered [⟨0, 0, "Lenovo", 1, 1, "brand"⟩] "bra" = []
        ∧ absaTypeFiltered "bra" (fun r => r.entity_type)
            [(⟨0, 0, "Lenovo", "brand", "l"⟩ : EntityRow)]
          = [⟨0, 0, "Lenovo", "brand", "l"⟩]) := by
  refine ⟨?_, ?_, ?_, ?_⟩
  · intro α ft getType rows r
    simp [absaTypeFiltered, List.mem_filter]
  · intro ct rows r hne
    simp [conceptTypeFiltered, if_neg hne, List.mem_filter]
  · intro d ents names ft nm h1
    simp only [ABSADataset.entity_frequency, h1, absaTypeFiltered_idem]
  · refine ⟨by decide, by decide, by decide, by decide⟩

theorem C8_filter_asymmetry_witness :
    ((⟨0, 0, "Lenovo", 1, 1, "brand"⟩ : ConceptRow)
        ∈ conceptTypeFiltered [⟨0, 0, "Lenovo", 1, 1, "brand"⟩] "brand"
      ↔ (⟨0, 0, "Lenovo", 1, 1, "brand"⟩ : ConceptRow)
          ∈ [(⟨0, 0, "Lenovo", 1, 1, "brand"⟩ : ConceptRow)]
        ∧ (⟨0, 0, "Lenovo", 1, 1, "brand"⟩ : ConceptRow).concept_type = "brand")
    ∧ ((ABSADataset.mk (some [⟨0, 0, "Lenovo", "brand", "l"⟩]) none none none none
        none).entity_frequency ["Lenovo"] "bra" false
      = (ABSADataset.mk
          (some (absaTypeFiltered "bra" (fun r => r.entity_type)
            [⟨0, 0, "Lenovo", "brand", "l"⟩]))
          none none none none none).entity_frequency ["Lenovo"] "bra" false) :=
  ⟨C8_filter_asymmetry.2.1 "brand" [⟨0, 0, "Lenovo", 1, 1, "brand"⟩]
      ⟨0, 0, "Lenovo", 1, 1, "brand"⟩ (by decide),
    C8_filter_asymmetry.2.2.1
      (ABSADataset.mk (some [⟨0, 0, "Lenovo", "brand", "l"⟩]) none none none none none)
      [⟨0, 0, "Lenovo", "brand", "l"⟩] ["Lenovo"] "bra" false rfl⟩

theorem filterFrame_idem {α : Type} (key : α → Nat) (ids : List Nat)
    (t : Option (List α)) :
    filterFrame key ids (filterFrame key ids t) = filterFrame key ids t := by
  cases t <;> simp [filterFrame, List.filter_filter]

theorem filterFrame_ite {α : Type} (key : α → Nat) (ids : List Nat) (b : Bool)
    (t : Option (List α)) :
    filterFrame key ids (if b then t else none)
      = (if b then filterFrame key ids t else none) := by
  cases b <;> simp [filterFrame]

theorem ite_pair_left {α β : Type} (a : Option (List α)) (b : Option (List β)) :
    (if a.isSome || b.isSome then a else none) = a := by
  cases a <;> cases b <;> simp

theorem ite_pair_right {α β : Type} (a : Option (List α)) (b : Option (List β)) :
    (if a.isSome || b.isSome then b else none) = b := by
  cases a <;> cases b <;> simp

theorem ite_single {α : Type} (a : Option (List α)) :
    (if a.isSome then a else none) = a := by
  cases a <;> simp

theorem ite_six_1 {α₁ α₂ α₃ α₄ α₅ α₆ : Type} (a₁ : Option (List α₁))
    (a₂ : Option (List α₂)) (a₃ : Option (List α₃)) (a₄ : Option (List α₄))
    (a₅ : Option (List α₅)) (a₆ : Option (List α₆)) :
    (if a₁.isSome || a₂.isSome || a₃.isSome || a₄.isSome || a₅.isSome || a₆.isSome
      then a₁ else none) = a₁ := by
  cases a₁ <;> simp

theorem ite_six_2 {α₁ α₂ α₃ α₄ α₅ α₆ : Type} (a₁ : Option (List α₁))
    (a₂ : Option (List α₂)) (a₃ : Option (List α₃)) (a₄ : Option (List α₄))
    (a₅ : Option (List α₅)) (a₆ : Option (List α₆)) :
    (if a₁.isSome || a₂.isSome || a₃.isSome || a₄.isSome || a₅.isSome || a₆.isSome
      then a₂ else none) = a₂ := by
  cases a₁ <;> cases a₂ <;> simp

theorem ite_six_3 {α₁ α₂ α₃ α₄ α₅ α₆ : Type} (a₁ : Option (List α₁))
    (a₂ : Option (List α₂)) (a₃ : Option (List α₃)) (a₄ : Option (List α₄))
    (a₅ : Option (List α₅)) (a₆ : Option (List α₆)) :
    (if a₁.isSome || a₂.isSome || a₃.isSome || a₄.isSome || a₅.isSome || a₆.isSome
      then a₃ else none) = a₃ := by
  cases a₁ <;> cases a₂ <;> cases a₃ <;> simp

theorem ite_six_4 {α₁ α₂ α₃ α₄ α₅ α₆ : Type} (a₁ : Option (List α₁))
    (a₂ : Option (List α₂)) (a₃ : Option (List α₃)) (a₄ : Option (List α₄))
    (a₅ : Option (List α₅)) (a₆ : Option (List α₆)) :
    (if a₁.isSome || a₂.isSome || a₃.isSome || a₄.isSome || a₅.isSome || a₆.isSome
      then a₄ else none) = a₄ := by
  cases a₁ <;> cases a₂ <;> cases a₃ <;> cases a₄ <;> simp

theorem ite_six_5 {α₁ α₂ α₃ α₄ α₅ α₆ : Type} (a₁ : Option (List α₁))
    (a₂ : Option (List α₂)) (a₃ : Option (List α₃)) (a₄ : Option (List α₄))
    (a₅ : Option (List α₅)) (a₆ : Option (List α₆)) :
    (if a₁.isSome || a₂.isSome || a₃.isSome || a₄.isSome || a₅.isSome || a₆.isSome
      then a₅ else none) = a₅ := by
  cases a₁ <;> cases a₂ <;> cases a₃ <;> cases a₄ <;> cases a₅ <;> simp

theorem ite_six_6 {α₁ α₂ α₃ α₄ α₅ α₆ : Type} (a₁ : Option (List α₁))
    (a₂ : Option (List α₂)) (a₃ : Option (List α₃)) (a₄ : Option (List α₄))
    (a₅ : Option (List α₅)) (a₆ : Option (List α₆)) :
    (if a₁.isSome || a₂.isSome || a₃.isSome || a₄.isSome || a₅.isSome || a₆.isSome
      then a₆ else none) = a₆ := by
  cases a₁ <;> cases a₂ <;> cases a₃ <;> cases a₄ <;> cases a₅ <;> cases a₆ <;> simp

/-- C9: filtering a loader twice with the same non-empty document ids
equals filtering once (the second filter returns the first filter's
loader unchanged, every table included, nulls staying null), and
filtering with an empty id collection raises `InvalidArgument` before
any loader is constructed. -/
theorem C9_filter_idempotent :
    (∀ (l l₁ : DatasetLoader) (ids : List Nat), ids ≠ [] →
      l.filter ids = .ok l₁ → l₁.filter ids = .ok l₁)
    ∧ (∀ l : DatasetLoader,
        l.filter [] = .error (.InvalidArgument "Cannot use empty filter")) := by
  constructor
  · intro l l₁ ids hne h
    have hni : ids.isEmpty = false := by
      cases ids with
      | nil => exact absurd rfl hne
      | cons a as => rfl
    have h' := h
    rw [DatasetLoader.filter, if_neg (by simp [hni])] at h'
    have hgoal : l₁.filter ids = l.filter ids := by
      simp only [DatasetLoader.init] at h'
      split at h'
      · rw [Except.ok.injEq] at h'
        subst h'
        have hite : ∀ (x y : Except AggError DatasetLoader),
            (if ids.isEmpty = true then x else y) = y := by
          intro x y
          rw [if_neg]
          simp [hni]
        rw [DatasetLoader.filter, DatasetLoader.filter, hite, hite]
        dsimp only
        simp only [filterFrame_ite, filterFrame_idem, ite_pair_left,
          ite_pair_right, ite_single, ite_six_1, ite_six_2, ite_six_3,
          ite_six_4, ite_six_5, ite_six_6]
      · exact absurd h' (by simp)
    rw [hgoal]
    exact h
  · intro l
    rfl

theorem C9_filter_idempotent_witness :
    loaderEx9F.filter [3] = .ok loaderEx9F
    ∧ loaderEx9.filter [] = .error (.InvalidArgument "Cannot use empty filter") :=
  ⟨C9_filter_idempotent.1 loaderEx9 loaderEx9F [3] (by decide) (by rfl),
    C9_filter_idempotent.2 loaderEx9⟩

theorem lookupVal_map (keys : List String) (f : String → ℚ) (k : String) :
    lookupVal (keys.map (fun x => (x, f x))) k
      = if k ∈ keys then some (f k) else none := by
  induction keys with
  | nil => simp [lookupVal]
  | cons a as ih =>
    by_cases h : a = k
    · subst h
      simp [lookupVal]
    · simp only [lookupVal, List.map_cons] at ih ⊢
      rw [List.find?_cons_of_neg]
      · rw [ih]
        have hmem : (k ∈ a :: as) ↔ (k ∈ as) := by
          rw [List.mem_cons]
          exact or_iff_right (fun hk => h hk.symm)
        rw [if_congr hmem rfl rfl]
      · simpa using h

theorem lookupVal_groupSum {α : Type} (key : α → String) (val : α → ℚ)
    (rows : List α) (k : String) :
    lookupVal (groupSum key val rows) k
      = if k ∈ rows.map key then
          some (((rows.filter (fun r => key r == k)).map val).sum)
        else none := by
  rw [groupSum, lookupVal_map]
  simp [List.mem_dedup]

theorem getD_lookupVal_groupSum {α : Type} (key : α → String) (val : α → ℚ)
    (rows : List α) (k : String) :
    (lookupVal (groupSum key val rows) k).getD 0
      = ((rows.filter (fun r => key r == k)).map val).sum := by
  rw [lookupVal_groupSum]
  split
  · rfl
  · rename_i hnm
    have hfil : rows.filter (fun r => key r == k) = [] := by
      rw [List.filter_eq_nil_iff]
      intro r hr hk
      have hkr : key r = k := by simpa using hk
      exact hnm (hkr ▸ List.mem_map_of_mem key hr)
    rw [hfil]
    rfl

theorem filter_swap {α : Type} (p q : α → Bool) (l : List α) :
    (l.filter p).filter q = (l.filter q).filter p := by
  induction l with
  | nil => rfl
  | cons a as ih =>
    by_cases hp : p a <;> by_cases hq : q a <;>
      simp [List.filter_cons, hp, hq, ih]

theorem sum_map_filter_eq_sum_ite {α : Type} (p : α → Bool) (val : α → ℚ)
    (l : List α) :
    ((l.filter p).map val).sum = (l.map (fun r => if p r then val r else 0)).sum := by
  induction l with
  | nil => rfl
  | cons a as ih =>
    by_cases h : p a <;> simp [List.filter_cons, h, ih]

theorem sum_ite_single (names : List String) (y : String) (v : ℚ)
    (hnd : names.Nodup) (hy : y ∈ names) :
    (names.map (fun k => if y = k then v else 0)).sum = v := by
  induction names with
  | nil => cases hy
  | cons a as ih =>
    rcases List.mem_cons.mp hy with rfl | hy'
    · have hnotin : y ∉ as := (List.nodup_cons.mp hnd).1
      have hz : (as.map (fun k => if y = k then v else 0)).sum = 0 := by
        apply List.sum_eq_zero
        intro x hx
        rcases List.mem_map.mp hx with ⟨k, hk, rfl⟩
        refine if_neg (fun he => hnotin ?_)
        rw [he]
        exact hk
      simp [hz]
    · have ha : ¬(y = a) := by
        intro he
        apply (List.nodup_cons.mp hnd).1
        rw [← he]
        exact hy'
      simp only [List.map_cons, List.sum_cons, if_neg ha, zero_add]
      exact ih (List.nodup_cons.mp hnd).2 hy'

theorem sum_over_names {α : Type} (key : α → String) (val : α → ℚ)
    (rows : List α) (names : List String) (hnd : names.Nodup)
    (hcov : ∀ r ∈ rows, key r ∈ names) :
    (names.map (fun k => ((rows.filter (fun r => key r == k)).map val).sum)).sum
      = (rows.map val).sum := by
  induction rows with
  | nil => simp
  | cons r rest ih =>
    have hcov' : ∀ x ∈ rest, key x ∈ names := fun x hx =>
      hcov x (List.mem_cons_of_mem _ hx)
    have hr : key r ∈ names := hcov r (List.mem_cons_self _ _)
    have hstep : ∀ k ∈ names,
        ((List.filter (fun x => key x == k) (r :: rest)).map val).sum
          = (if key r = k then val r else 0)
            + ((rest.filter (fun x => key x == k)).map val).sum := by
      intro k _
      by_cases h : key r = k
      · simp [List.filter_cons, h]
      · simp [List.filter_cons, h]
    rw [List.map_congr_left hstep, List.sum_map_add, sum_ite_single _ _ _ hnd hr,
      ih hcov']
    simp

/-- C2 counterexample: on a non-null (empty) concepts table with
`normalize=True`, the requested absent concept gets the `NaN` of the
`0/0` division, not the value 0 the claim promises. -/
theorem C2_counterexample :
    (ConceptsDataset.mk (some []) none).concept_frequency ["A"] "" true
        = .ok ⟨"Count", "Concept", [("A", none)]⟩
    ∧ (none : Option ℚ) ≠ some 0 := by
  constructor
  · rfl
  · simp

/-- C2 amended: for every non-null concepts table, valid type filter and
requested name list, `concept_frequency` returns a series indexed by
exactly the requested names in the caller's order (independent of the
table), and every requested concept with no matching rows under the
filter has value 0 — except that with `normalize=True` and a filtered
subset of total `freq` 0, the value is `NaN` (`none`) instead. -/
theorem C2_amended (con : List ConceptRow) (ss : Option (List SurfaceRow))
    (names : List String) (ct : String) (nm : Bool)
    (hv : (ConceptsDataset.mk (some con) ss).concept_filter.contains ct = true) :
    ((ConceptsDataset.mk (some con) ss).concept_frequency names ct nm).map
        (fun s => s.values.map Prod.fst) = .ok names
    ∧ (∀ s, (ConceptsDataset.mk (some con) ss).concept_frequency names ct nm = .ok s →
        ∀ p ∈ s.values,
          (conceptTypeFiltered con ct).filter (fun r => r.concept == p.1) = [] →
          p.2 = if nm = true
              ∧ ((conceptTypeFiltered con ct).map (fun r => (r.freq : ℚ))).sum = 0
            then none else some 0) := by
  have hv' : ct ∈ (ConceptsDataset.mk (some con) ss).concept_filter := by
    simpa using hv
  constructor
  · simp only [ConceptsDataset.concept_frequency]
    rw [if_neg (by simp [hv'])]
    cases nm
    · simp only [Except.map, Bool.false_eq_true, if_false, List.map_map,
        Except.ok.injEq]
      exact (List.map_congr_left (fun c _ => rfl)).trans (List.map_id _)
    · simp only [Except.map, List.map_map, Except.ok.injEq, if_true,
        eq_self_iff_true]
      exact (List.map_congr_left (fun c _ => rfl)).trans (List.map_id _)
  · intro s hs p hp hfilter
    simp only [ConceptsDataset.concept_frequency] at hs
    rw [if_neg (by simp [hv'])] at hs
    rw [Except.ok.injEq] at hs
    subst hs
    simp only at hp
    have hzero : ∀ c : String, (conceptTypeFiltered con ct).filter
          (fun r => r.concept == c) = [] →
        (lookupVal (groupSum (fun r => r.concept) (fun r => (r.freq : ℚ))
          ((conceptTypeFiltered con ct).filter
            (fun r => names.contains r.concept))) c).getD 0 = 0 := by
      intro c hc
      rw [getD_lookupVal_groupSum, filter_swap, hc]
      rfl
    cases nm with
    | false =>
      rcases List.mem_map.mp hp with ⟨q, hq, rfl⟩
      rcases List.mem_map.mp hq with ⟨c, _, rfl⟩
      simp only [Function.comp] at hfilter ⊢
      rw [hzero c hfilter, if_neg (by simp)]
    | true =>
      rcases List.mem_map.mp hp with ⟨q, hq, rfl⟩
      rcases List.mem_map.mp hq with ⟨c, _, rfl⟩
      simp only [Function.comp] at hfilter ⊢
      rw [hzero c hfilter]
      by_cases hsz : ((conceptTypeFiltered con ct).map (fun r => (r.freq : ℚ))).sum = 0
      · rw [if_pos (by simpa using hsz), if_pos ⟨by trivial, hsz⟩]
      · rw [if_neg (by simpa using hsz), if_neg (by simp [hsz])]
        simp [zero_div]

theorem C2_amended_witness :
    ((ConceptsDataset.mk (some [⟨0, 0, "Lenovo", 1, 1, "brand"⟩]) none).concept_frequency
        ["Lenovo", "Ghost"] "" false).map (fun s => s.values.map Prod.fst)
      = .ok ["Lenovo", "Ghost"]
    ∧ (∀ s, (ConceptsDataset.mk (some [⟨0, 0, "Lenovo", 1, 1, "brand"⟩]) none).concept_frequency
        ["Lenovo", "Ghost"] "" false = .ok s →
        ∀ p ∈ s.values,
          (conceptTypeFiltered [⟨0, 0, "Lenovo", 1, 1, "brand"⟩] "").filter
            (fun r => r.concept == p.1) = [] →
          p.2 = if false = true
              ∧ ((conceptTypeFiltered [⟨0, 0, "Lenovo", 1, 1, "brand"⟩] "").map
                (fun r => (r.freq : ℚ))).sum = 0
            then none else some 0) :=
  C2_amended [⟨0, 0, "Lenovo", 1, 1, "brand"⟩] none ["Lenovo", "Ghost"] "" false
    (by decide)

theorem filterMap_snd_double (l : List String) (g : String → ℚ) (q : ℚ) :
    ((l.map (fun c => (c, g c))).map (fun p => (p.1, some (p.2 / q)))).filterMap
        (fun p => p.2) = l.map (fun c => g c / q) := by
  induction l with
  | nil => rfl
  | cons a as ih =>
    simp only [List.map_cons, List.filterMap_cons]
    rw [ih]

/-- C6 counterexample: a non-null, non-empty filtered subset whose total
`freq` is 0 (one row with `freq = 0`) makes every normalized value `NaN`
(`0/0`), so the values do not sum to 1 even though the requested
collection contains all distinct concepts of the subset. -/
theorem C6_counterexample :
    conceptTypeFiltered [⟨0, 0, "A", 0, 1, "t"⟩] "" ≠ []
    ∧ (ConceptsDataset.mk (some [⟨0, 0, "A", 0, 1, "t"⟩]) none).concept_frequency
        ["A"] "" true = .ok ⟨"Count", "Concept", [("A", none)]⟩
    ∧ (∀ s, (ConceptsDataset.mk (some [⟨0, 0, "A", 0, 1, "t"⟩]) none).concept_frequency
        ["A"] "" true = .ok s → (s.values.filterMap (fun p => p.2)).sum ≠ 1) := by
  have hcf : (ConceptsDataset.mk (some [⟨0, 0, "A", 0, 1, "t"⟩]) none).concept_frequency
      ["A"] "" true = .ok ⟨"Count", "Concept", [("A", none)]⟩ := by
    with_unfolding_all rfl
  refine ⟨by simp [conceptTypeFiltered], hcf, ?_⟩
  intro s hs
  rw [hcf] at hs
  injection hs with h
  rw [← h]
  decide

/-- C6 amended: with a valid type filter, a duplicate-free request
containing every distinct concept of the filtered subset, and a filtered
subset whose total `freq` is NON-ZERO, `concept_frequency` with
`normalize=True` returns values that are all defined and sum to exactly
1 over the rationals. -/
theorem C6_amended (con : List ConceptRow) (ss : Option (List SurfaceRow))
    (ct : String) (names : List String)
    (hv : (ConceptsDataset.mk (some con) ss).concept_filter.contains ct = true)
    (hnd : names.Nodup)
    (hcover : ∀ r ∈ conceptTypeFiltered con ct, r.concept ∈ names)
    (hsz : ((conceptTypeFiltered con ct).map (fun r => (r.freq : ℚ))).sum ≠ 0) :
    ((ConceptsDataset.mk (some con) ss).concept_frequency names ct true).map
        (fun s => (s.values.filterMap (fun p => p.2)).sum) = .ok 1
    ∧ ((ConceptsDataset.mk (some con) ss).concept_frequency names ct true).map
        (fun s => s.values.all (fun p => p.2.isSome)) = .ok true := by
  have hv' : ct ∈ (ConceptsDataset.mk (some con) ss).concept_filter := by
    simpa using hv
  have hbeq : (((conceptTypeFiltered con ct).map (fun r => (r.freq : ℚ))).sum == 0)
      = false := by
    simpa using hsz
  have hmatch : (conceptTypeFiltered con ct).filter
        (fun r => names.contains r.concept) = conceptTypeFiltered con ct := by
    rw [List.filter_eq_self]
    intro r hr
    simpa using hcover r hr
  constructor
  · simp only [ConceptsDataset.concept_frequency]
    rw [if_neg (by simp [hv'])]
    simp only [hbeq, Bool.false_eq_true, if_false, if_true, Except.map,
      Except.ok.injEq]
    rw [filterMap_snd_double]
    simp only [getD_lookupVal_groupSum, hmatch, div_eq_mul_inv]
    rw [List.sum_map_mul_right,
      sum_over_names (fun r => r.concept) (fun r => (r.freq : ℚ))
        (conceptTypeFiltered con ct) names hnd hcover]
    exact mul_inv_cancel₀ hsz
  · simp only [ConceptsDataset.concept_frequency]
    rw [if_neg (by simp [hv'])]
    simp only [hbeq, Bool.false_eq_true, if_false, if_true, Except.map,
      Except.ok.injEq]
    rw [List.all_eq_true]
    intro p hp
    rcases List.mem_map.mp hp with ⟨c, _, rfl⟩
    rfl

theorem C6_amended_witness :
    ((ConceptsDataset.mk (some [⟨0, 0, "A", 2, 1, "t"⟩]) none).concept_frequency
        ["A"] "" true).map (fun s => (s.values.filterMap (fun p => p.2)).sum) = .ok 1
    ∧ ((ConceptsDataset.mk (some [⟨0, 0, "A", 2, 1, "t"⟩]) none).concept_frequency
        ["A"] "" true).map (fun s => s.values.all (fun p => p.2.isSome)) = .ok true :=
  C6_amended [⟨0, 0, "A", 2, 1, "t"⟩] none "" ["A"] (by decide) (by decide)
    (by decide) (by with_unfolding_all decide)

theorem filter_flatMap {α β : Type} (l : List β) (f : β → List α) (p : α → Bool) :
    (l.flatMap f).filter p = l.flatMap (fun a => (f a).filter p) := by
  induction l with
  | nil => rfl
  | cons a as ih => simp [List.flatMap_cons, List.filter_append, ih]

theorem sum_join_count {α β : Type} [BEq β] [LawfulBEq β] (texts : List β)
    (rows : List α) (pk : α → β) (sel : α → Bool) (val : α → ℚ) :
    (((texts.flatMap (fun dt => rows.filter (fun r => pk r == dt))).filter sel).map
      val).sum
      = ((rows.filter sel).map
          (fun r => val r * (texts.count (pk r) : ℚ))).sum := by
  induction texts with
  | nil =>
    simp only [List.flatMap_nil, List.filter_nil, List.map_nil, List.sum_nil,
      List.count_nil, Nat.cast_zero, mul_zero]
    exact (List.sum_eq_zero (fun x hx => by
      rcases List.mem_map.mp hx with ⟨r, _, rfl⟩
      rfl)).symm
  | cons dt ts ih =>
    simp only [List.flatMap_cons, List.filter_append, List.map_append,
      List.sum_append, ih]
    rw [filter_swap, sum_map_filter_eq_sum_ite (fun r => pk r == dt) val
      (rows.filter sel), ← List.sum_map_add]
    refine congrArg List.sum (List.map_congr_left (fun r _ => ?_))
    rw [List.count_cons]
    push_cast
    by_cases h : pk r = dt
    · subst h
      simp only [beq_self_eq_true, if_true]
      ring
    · have h1 : (pk r == dt) = false := beq_eq_false_iff_ne.mpr h
      have h2 : (dt == pk r) = false := beq_eq_false_iff_ne.mpr (Ne.symm h)
      simp only [h1, h2, Bool.false_eq_true, if_false]
      ring

/-- C5 counterexample: with the queried concept occurring TWICE in the
same `(doc_id, text_order)` pair (case-insensitive match on two rows),
the implementation counts the single co-occurring `Samsung` row once per
occurrence (count 2), while the claim's set-of-pairs semantics yields
its `freq` sum of 1. -/
theorem C5_counterexample :
    (ConceptsDataset.mk
        (some [⟨0, 0, "Lenovo", 1, 1, "brand"⟩, ⟨0, 0, "LENOVO", 1, 1, "brand"⟩,
          ⟨0, 0, "Samsung", 1, 1, "brand"⟩]) none).co_occurring_concepts "lenovo" 15 ""
      = .ok ⟨"Count", "Concept", [("Samsung", some 2)]⟩
    ∧ coOccurSetCount [⟨0, 0, "Lenovo", 1, 1, "brand"⟩, ⟨0, 0, "LENOVO", 1, 1, "brand"⟩,
        ⟨0, 0, "Samsung", 1, 1, "brand"⟩] "lenovo" "" "Samsung" = 1
    ∧ (some (2 : ℚ) ≠ some (1 : ℚ)) := by
  refine ⟨?_, ?_, by simp⟩
  · with_unfolding_all rfl
  · with_unfolding_all rfl

theorem groupSum_join_value {α β : Type} [BEq β] [LawfulBEq β] (texts : List β)
    (rows : List α) (pk : α → β) (key : α → String) (val : α → ℚ)
    (p : String × ℚ)
    (hmem : p ∈ groupSum key val
      (texts.flatMap (fun dt => rows.filter (fun r => pk r == dt)))) :
    p.2 = ((rows.filter (fun r => key r == p.1)).map
      (fun r => val r * (texts.count (pk r) : ℚ))).sum := by
  rcases List.mem_map.mp hmem with ⟨k, _, rfl⟩
  exact sum_join_count texts rows pk (fun r => key r == k) val

theorem count_occ_pairs (con : List ConceptRow) (concept : String) (i t : Nat) :
    ((con.filter (fun r => strLower r.concept == strLower concept)).map
      (fun r => (r.doc_id, r.text_order))).count (i, t)
      = (con.filter (fun r => strLower r.concept == strLower concept &&
          r.doc_id == i && r.text_order == t)).length := by
  rw [List.count_eq_countP, List.countP_map, List.countP_eq_length_filter,
    List.filter_filter]
  congr 1
  apply List.filter_congr
  intro r _
  show ((r.doc_id, r.text_order) == (i, t)
      && (strLower r.concept == strLower concept)) = _
  rw [show ((r.doc_id, r.text_order) == (i, t))
      = (r.doc_id == i && r.text_order == t) from rfl]
  rw [Bool.and_comm, ← Bool.and_assoc]

set_option maxHeartbeats 2000000 in
/-- C5 amended: for a valid type filter and a concept that does occur in
the table (case-insensitively), `co_occurring_concepts` returns a series
of at most `n` entries, sorted by count descending, in which each
co-occurring concept's count is the MULTIPLICITY-WEIGHTED sum: each
co-occurring row's `freq` counted once per occurrence of the queried
concept in the same `(doc_id, text_order)` text (the occurrence pairs
are not deduplicated before the join). -/
theorem C5_amended (con : List ConceptRow) (ss : Option (List SurfaceRow))
    (concept : String) (n : Nat) (ct : String)
    (hv : (ConceptsDataset.mk (some con) ss).concept_filter.contains ct = true)
    (hocc : (con.filter (fun r => strLower r.concept == strLower concept)).length ≠ 0) :
    ∃ base : List (String × ℚ),
      (ConceptsDataset.mk (some con) ss).co_occurring_concepts concept n ct
        = .ok ⟨"Count", orDefault (pyJoinCapitalize ct) "Concept",
            base.map (fun p => (p.1, some p.2))⟩
      ∧ List.Sorted (fun a b => b.2 ≤ a.2) base
      ∧ base.length ≤ n
      ∧ ∀ p ∈ base, p.2 = coOccurMultCount con concept ct p.1 := by
  have hv' : ct ∈ (ConceptsDataset.mk (some con) ss).concept_filter := by
    simpa using hv
  simp only [ConceptsDataset.co_occurring_concepts]
  rw [if_neg (by simp [hv'])]
  rw [if_pos (by simpa using hocc)]
  refine ⟨_, rfl, ?_, ?_, ?_⟩
  · exact List.Pairwise.sublist (List.take_sublist _ _)
      (List.sorted_insertionSort _ _)
  · exact List.length_take_le _ _
  · intro p hp
    have hp1 := List.take_subset _ _ hp
    have hp2 := ((List.perm_insertionSort
      (fun (a b : String × ℚ) => b.2 ≤ a.2) _).mem_iff).mp hp1
    have hval := groupSum_join_value
      ((con.filter (fun r => strLower r.concept == strLower concept)).map
        (fun r => (r.doc_id, r.text_order)))
      ((conceptTypeFiltered con ct).filter
        (fun r => !(strLower r.concept == strLower concept)))
      (fun r => (r.doc_id, r.text_order)) (fun r => r.concept)
      (fun r => (r.freq : ℚ)) p hp2
    rw [hval]
    simp only [coOccurMultCount, occCountAt]
    have hlist : (((conceptTypeFiltered con ct).filter
          (fun r => !(strLower r.concept == strLower concept))).filter
          (fun r => r.concept == p.1))
        = (conceptTypeFiltered con ct).filter
          (fun r => !(strLower r.concept == strLower concept) && r.concept == p.1) := by
      rw [List.filter_filter]
      exact List.filter_congr (fun r _ => Bool.and_comm _ _)
    rw [hlist]
    refine congrArg List.sum (List.map_congr_left (fun r _ => ?_))
    rw [count_occ_pairs]

theorem C5_amended_witness :
    ∃ base : List (String × ℚ),
      (ConceptsDataset.mk
          (some [⟨0, 0, "Lenovo", 1, 1, "brand"⟩, ⟨0, 0, "LENOVO", 1, 1, "brand"⟩,
            ⟨0, 0, "Samsung", 1, 1, "brand"⟩]) none).co_occurring_concepts "lenovo" 15 ""
        = .ok ⟨"Count", orDefault (pyJoinCapitalize "") "Concept",
            base.map (fun p => (p.1, some p.2))⟩
      ∧ List.Sorted (fun a b => b.2 ≤ a.2) base
      ∧ base.length ≤ 15
      ∧ ∀ p ∈ base, p.2 = coOccurMultCount
          [⟨0, 0, "Lenovo", 1, 1, "brand"⟩, ⟨0, 0, "LENOVO", 1, 1, "brand"⟩,
            ⟨0, 0, "Samsung", 1, 1, "brand"⟩] "lenovo" "" p.1 :=
  C5_amended
    [⟨0, 0, "Lenovo", 1, 1, "brand"⟩, ⟨0, 0, "LENOVO", 1, 1, "brand"⟩,
      ⟨0, 0, "Samsung", 1, 1, "brand"⟩] none "lenovo" 15 "" (by decide) (by decide)
